import Mathlib

/-!
# Verification of the voice-MDS Dash app (`src/app.py`)

Shallow embedding of the single-file Dash application that visualises
multidimensional-scaling coordinates of voice stimuli and plays audio on
click.  Pure Python functions become Lean functions; the pandas dataframe
becomes a list of rows; the filesystem (CSV files, audio assets) becomes an
explicit function parameter; Python exceptions become `Except.error`.
-/

/-- A row of a coordinate CSV (`mds_results/coords_*.csv`): columns
`speaker`, `language`, `dim1`, `dim2` and, for 3-d tables, `dim3`.
Numeric cells are modelled as rationals. -/
structure Row where
  speaker  : String
  language : String
  dim1     : ℚ
  dim2     : ℚ
  dim3     : Option ℚ
deriving DecidableEq, Repr

/-- A dataframe is the list of its rows. -/
abbrev DataFrame := List Row

/-- A row after `build_figure` has added the derived `label` column
(`df["label"] = df["speaker"] + "_" + ...`). -/
structure LRow where
  speaker  : String
  language : String
  dim1     : ℚ
  dim2     : ℚ
  dim3     : Option ℚ
  label    : String
deriving DecidableEq, Repr

/-- Python `str.lower()` (over the characters of the string). -/
def strLower (s : String) : String := String.mk (s.data.map Char.toLower)

/-- Python `str.capitalize()`: first character upper-cased, the rest
lower-cased. -/
def pyCapitalize (s : String) : String :=
  match s.data with
  | [] => ""
  | c :: cs => String.mk (c.toUpper :: cs.map Char.toLower)

/-- Function `audio_for(row, stim)` from `app.py`: the candidate audio filenames
attached to a point.  Four synthesized names (two per language) for the
mixed stimulus set, otherwise two names built from the
`speaker` and `language` fields of the row. -/
def audio_for (row : LRow) (stim : String) : List String :=
  if stim = "mixed" then
    [row.speaker ++ "_Can_utt1.wav", row.speaker ++ "_Can_utt2.wav",
     row.speaker ++ "_Eng_utt1.wav", row.speaker ++ "_Eng_utt2.wav"]
  else
    [row.speaker ++ "_" ++ row.language ++ "_utt1.wav",
     row.speaker ++ "_" ++ row.language ++ "_utt2.wav"]

/-- The ten-colour palette of `app.py`. -/
def palette : List String :=
  ["#1f77b4", "#ff7f0e", "#2ca02c", "#d62728", "#9467bd",
   "#8c564b", "#e377c2", "#7f7f7f", "#bcbd22", "#17becf"]

/-- Python `sorted(speakers.unique())`: the sorted list of distinct speakers. -/
def sortedUniq (speakers : List String) : List String :=
  speakers.dedup.insertionSort (· ≤ ·)

/-- Function `color_map(speakers)` from `app.py`: dictionary sending the `i`-th
speaker (in sorted unique order) to `palette[i % len(palette)]`.
Modelled as an association list. -/
def color_map (speakers : List String) : List (String × String) :=
  (sortedUniq speakers).enum.map
    (fun p => (p.2, palette.getD (p.1 % palette.length) ""))

/-- Dict `sym_map` from `app.py`. -/
def sym_map : List (String × String) :=
  [("can", "circle"), ("eng", "square"), ("mixed", "diamond")]

/-- Dict `name_map` from `app.py`. -/
def name_map : List (String × String) :=
  [("can", "Cantonese"), ("eng", "English"), ("mixed", "Mixed")]

/-- Fixed-point decimal rendering with three digits, modelling Python
`format(x, ".3f")` (rounding mode approximated by `round`). -/
def fmt3 (q : ℚ) : String :=
  let n : ℤ := round (q * 1000)
  let a := n.natAbs
  let d := a % 1000
  (if n < 0 then "-" else "") ++ toString (a / 1000) ++ "." ++
    (if d < 10 then "00" else if d < 100 then "0" else "") ++ toString d

/-- A plotly axis: its title and its `range=[lo, hi]`. -/
structure AxisSpec where
  title : String
  range : ℚ × ℚ
deriving DecidableEq, Repr

/-- The axis part of the layout: `xaxis`/`yaxis` for 2-d figures, a
`scene` with three axes for 3-d figures. -/
inductive AxesLayout
  | twoD (xaxis yaxis : AxisSpec)
  | threeD (xaxis yaxis zaxis : AxisSpec)
deriving DecidableEq, Repr

/-- The `go.Layout` built in `build_figure`. -/
structure Layout where
  template   : String
  showlegend : Bool
  height     : ℕ
  margin     : ℕ × ℕ × ℕ × ℕ
  font       : String
  axes       : AxesLayout
deriving DecidableEq, Repr

/-- The marker dict of a trace.  `color` entries are dict lookups in
`cm` and hence `Option`s (a missing key would be a Python `KeyError`). -/
structure Marker where
  size       : ℕ
  color      : List (Option String)
  symbol     : Option String
  line_width : ℕ
  line_color : String
deriving DecidableEq, Repr

/-- One `go.Scatter`/`go.Scatter3d` trace. -/
structure Trace where
  is3d          : Bool
  x             : List ℚ
  y             : List ℚ
  z             : Option (List (Option ℚ))
  mode          : String
  marker        : Marker
  text          : List String
  textposition  : String
  textfont_size : ℕ
  hoverinfo     : String
  hovertext     : List String
  customdata    : List (List String)
  name          : Option String
deriving DecidableEq, Repr

/-- A `go.Figure`: traces plus layout. -/
structure Figure where
  traces : List Trace
  layout : Layout
deriving DecidableEq, Repr

/-- Column assignment `df["label"] = df["speaker"] + "_" + (df["language"].str.capitalize()
if stim != "mixed" else "Mixed")`, on one row. -/
def setLabel (stim : String) (r : Row) : LRow :=
  { speaker := r.speaker, language := r.language, dim1 := r.dim1,
    dim2 := r.dim2, dim3 := r.dim3,
    label := r.speaker ++ "_" ++
      (if stim ≠ "mixed" then pyCapitalize r.language else "Mixed") }

/-- Adding the derived `label` column to a (copy of a) dataframe. -/
def setLabelCol (df : DataFrame) (stim : String) : List LRow :=
  df.map (setLabel stim)

/-- One entry of the `hov` list in `build_figure`. -/
def hoverLine (dim lang : String) (r : LRow) : String :=
  r.label ++ "<br>Speaker: " ++ r.speaker ++ "<br>Language: " ++
    ((name_map.lookup lang).getD "") ++
    "<br>Coords: (" ++ fmt3 r.dim1 ++ ", " ++ fmt3 r.dim2 ++
    (if dim = "3d" then ", " ++ fmt3 (r.dim3.getD 0) else "") ++ ")"

/-- The trace built for one language series in `build_figure`. -/
def mkTrace (cm : List (String × String)) (size : ℕ)
    (dim stim lang : String) (sub : List LRow) : Trace :=
  { is3d := dim ≠ "2d"
    x := sub.map (·.dim1)
    y := sub.map (·.dim2)
    z := if dim = "2d" then none else some (sub.map (·.dim3))
    mode := "markers+text"
    marker := { size := size
                color := sub.map (fun r => cm.lookup r.speaker)
                symbol := sym_map.lookup lang
                line_width := 1
                line_color := "black" }
    text := sub.map (·.label)
    textposition := "bottom center"
    textfont_size := if dim = "3d" ∧ stim = "mixed" then 24 else 12
    hoverinfo := "text"
    hovertext := sub.map (hoverLine dim lang)
    customdata := sub.map (fun r => audio_for r stim)
    name := name_map.lookup lang }

/-- Statement `langs = ["mixed"] if stim == "mixed" else ["can", "eng"]`. -/
def langsFor (stim : String) : List String :=
  if stim = "mixed" then ["mixed"] else ["can", "eng"]

/-- Statement `sub = df if lang == "mixed" else df[df["language"].str.lower() == lang]`. -/
def subFor (ldf : List LRow) (lang : String) : List LRow :=
  if lang = "mixed" then ldf else ldf.filter (fun r => strLower r.language = lang)

/-- The loop over `langs` in `build_figure`; an empty sub-frame is
skipped (`continue`). -/
def tracesFor (ldf : List LRow) (dim stim : String) : List Trace :=
  let cm := color_map (ldf.map (·.speaker))
  let size := if dim = "2d" ∨ (dim = "3d" ∧ stim = "mixed") then 12 else 6
  (langsFor stim).filterMap (fun lang =>
    let sub := subFor ldf lang
    if sub.isEmpty then none else some (mkTrace cm size dim stim lang sub))

/-- Constant `range=[-0.8, 0.8]`, the fixed axis range of every axis. -/
def fixedRange : ℚ × ℚ := ((-4 : ℚ)/5, (4 : ℚ)/5)

/-- The layout built in `build_figure`: base layout plus the
dimension-specific axis specification. -/
def mkLayout (dim : String) : Layout :=
  { template := "plotly_white", showlegend := false, height := 600,
    margin := (40, 40, 40, 40), font := "Arial, sans-serif",
    axes :=
      if dim = "2d" then
        .twoD ⟨"Dimension 1", fixedRange⟩ ⟨"Dimension 2", fixedRange⟩
      else
        .threeD ⟨"Dimension 1", fixedRange⟩ ⟨"Dimension 2", fixedRange⟩
          ⟨"Dimension 3", fixedRange⟩ }

/-- The figure assembled from an already-labelled dataframe. -/
def mkFigure (ldf : List LRow) (dim stim : String) : Figure :=
  { traces := tracesFor ldf dim stim, layout := mkLayout dim }

/-- Function `build_figure(df, dim, stim)` from `app.py` as a pure function:
label the rows, build the per-language traces and the fixed layout. -/
def build_figure (df : DataFrame) (dim stim : String) : Figure :=
  mkFigure (setLabelCol df stim) dim stim

/-- The list of axis ranges appearing in the layout of a figure. -/
def axisRanges (fig : Figure) : List (ℚ × ℚ) :=
  match fig.layout.axes with
  | .twoD x y => [x.range, y.range]
  | .threeD x y z => [x.range, y.range, z.range]

/-- The number of points in one trace (length of its `x` column). -/
def tracePoints (t : Trace) : ℕ := t.x.length

/-- One point of a Dash `clickData` payload.  `customdata` is `none`
when the JSON value is `null` (Python `None`). -/
structure Point where
  customdata : Option (List String)
deriving DecidableEq, Repr

/-- A `clickData` payload: its `points` list.  A payload without a
`points` key is modelled by an empty list (both are falsy in the
`c and c.get("points")` guard). -/
structure ClickData where
  points : List Point
deriving DecidableEq, Repr

/-- What the `play_audio` callback returns into the `audio-output`
div: a text message, or one `html.Audio` player per source URL. -/
inductive Rendered
  | message (s : String)
  | players (srcs : List String)
deriving DecidableEq, Repr

/-- Truthiness of one candidate in `next((c for c in (cd_all, cd_can,
cd_eng) if c and c.get("points")), None)`: the payload exists and its
`points` list is non-empty. -/
def truthyClick (c : Option ClickData) : Bool :=
  match c with
  | none => false
  | some cd => !cd.points.isEmpty

/-- The `next(..., None)` expression of `play_audio`: the first click
payload, in the fixed order (all, can, eng), that passes the guard. -/
def selectedClick (cd_all cd_can cd_eng : Option ClickData) : Option ClickData :=
  if truthyClick cd_all then cd_all
  else if truthyClick cd_can then cd_can
  else if truthyClick cd_eng then cd_eng
  else none

/-- The body of `play_audio` past the `customdata` access, for a given
candidate list: keep the files that exist under `./assets/`, render one
player (with `src="/assets/{f}"`) per survivor, or the not-found
message when none survive.  `fs` is the file-existence predicate
(`os.path.exists`). -/
def renderFiles (fs : String → Bool) (files : List String) : Rendered :=
  let players := (files.filter (fun f => fs ("./assets/" ++ f))).map
    (fun f => "/assets/" ++ f)
  if players.isEmpty then .message "Audio files not found" else .players players

/-- Statement `files = click["points"][0]["customdata"]; ...` for the first point
of the selected click: iterating a `None` customdata raises `TypeError`,
otherwise the existing files are rendered. -/
def handlePoint (fs : String → Bool) (p : Point) : Except String Rendered :=
  match p.customdata with
  | none => .error "TypeError: NoneType object is not iterable"
  | some files => .ok (renderFiles fs files)

/-- The callback body on the selected click: the idle prompt when no
click passed the guard, otherwise handle `click["points"][0]`
(indexing an empty list raises `IndexError`; unreachable here because
the guard requires a non-empty `points`). -/
def renderClick (fs : String → Bool) (click : Option ClickData) :
    Except String Rendered :=
  match click with
  | none => .ok (.message "Click a point to hear example audio")
  | some cd =>
    match cd.points with
    | [] => .error "IndexError: list index out of range"
    | p :: _ => handlePoint fs p

/-- Function `play_audio(cd_all, cd_can, cd_eng)` from `app.py`, with the
filesystem passed explicitly and Python exceptions as `Except.error`. -/
def play_audio (fs : String → Bool)
    (cd_all cd_can cd_eng : Option ClickData) : Except String Rendered :=
  renderClick fs (selectedClick cd_all cd_can cd_eng)

/-- List `stimuli_types` from `app.py`. -/
def stimuli_types : List String := ["all", "can", "eng", "mixed"]

/-- List `listener_groups` from `app.py`. -/
def listener_groups : List String := ["all", "can", "eng"]

/-- List `dims` from `app.py`. -/
def dims : List String := ["2d", "3d"]

/-- Decimal value of a digit list (big-endian). -/
def charsToNat (cs : List Char) : ℕ :=
  cs.foldl (fun acc c => acc * 10 + (c.toNat - 48)) 0

/-- Python `int(d[:-1])`: the numeric dimensionality parsed from `"2d"`/`"3d"`. -/
def dimNum (d : String) : ℕ := charsToNat d.data.dropLast

/-- The CSV path `f"mds_results/coords_{stim}_stimuli_{group}_listeners_{dim}dim.csv"`. -/
def coordPath (stim group : String) (dim : ℕ) : String :=
  "mds_results/coords_" ++ stim ++ "_stimuli_" ++ group ++ "_listeners_" ++
    toString dim ++ "dim.csv"

/-- Function `load_coords(stim, group, dim)`: read one coordinate CSV.  The
filesystem `fsv` maps a path to its parsed table, or to `none` when the
file is absent or malformed, in which case `pd.read_csv` raises. -/
def load_coords (fsv : String → Option DataFrame) (stim group : String)
    (dim : ℕ) : Except String DataFrame :=
  match fsv (coordPath stim group dim) with
  | none => .error ("read_csv failed: " ++ coordPath stim group dim)
  | some t => .ok t

/-- The facet keys enumerated by the `coords` dict comprehension, in
its evaluation order: dimensionality outermost, then stimulus type,
then listener group. -/
def facetKeys : List (String × String × String) :=
  dims.flatMap (fun d => stimuli_types.flatMap
    (fun s => listener_groups.map (fun g => (d, s, g))))

/-- Loading the tables for a list of facet keys in order; the first
failing `load_coords` aborts the whole load (module import fails). -/
def loadFacets (fsv : String → Option DataFrame) :
    List (String × String × String) →
    Except String (List ((String × String × String) × DataFrame))
  | [] => .ok []
  | k :: ks =>
    match load_coords fsv k.2.1 k.2.2 (dimNum k.1) with
    | .error e => .error e
    | .ok t =>
      match loadFacets fsv ks with
      | .error e => .error e
      | .ok rest => .ok ((k, t) :: rest)

/-- The module-level `coords` dict built at process start: one table
per facet combination, or a startup failure. -/
def loadAllCoords (fsv : String → Option DataFrame) :
    Except String (List ((String × String × String) × DataFrame)) :=
  loadFacets fsv facetKeys

/-- Decidable form of "the lowercased language of every row is `can` or
`eng`" (the correct language/type partition of a facet table). -/
def langOK (df : DataFrame) : Bool :=
  df.all (fun r => strLower r.language == "can" || strLower r.language == "eng")

/-- A dataframe object on the Python heap: the raw CSV table, or the
table after the derived `label` column has been assigned. -/
inductive DFObj
  | raw (df : DataFrame)
  | labeled (ldf : List LRow)
deriving DecidableEq, Repr

/-- A heap of dataframe objects: references paired with their current
contents, plus the next fresh reference. -/
structure Store where
  data : List (ℕ × DFObj)
  next : ℕ
deriving Repr

/-- Association lookup in the heap (first entry with the given
reference wins). -/
def assocFind (r : ℕ) : List (ℕ × DFObj) → Option DFObj
  | [] => none
  | p :: l => if p.1 = r then some p.2 else assocFind r l

/-- Dereference. -/
def Store.read (st : Store) (r : ℕ) : Option DFObj := assocFind r st.data

/-- Python `df.copy()`: allocate a fresh object with the given contents. -/
def Store.alloc (st : Store) (v : DFObj) : Store × ℕ :=
  ({ data := (st.next, v) :: st.data, next := st.next + 1 }, st.next)

/-- In-place mutation (`df["label"] = ...`) of the object behind `r`. -/
def Store.write (st : Store) (r : ℕ) (v : DFObj) : Store :=
  { st with data := st.data.map (fun p => if p.1 = r then (r, v) else p) }

/-- Well-formedness: every live reference is below `next`, so
allocation is fresh. -/
def Store.WF (st : Store) : Prop := ∀ p ∈ st.data, p.1 < st.next

/-- Function `build_figure` at the heap level: read the caller's dataframe,
copy it (`df = df.copy()`), assign the label column to the copy, and
return the figure.  Returns `none` when `r` is not a raw dataframe. -/
def build_figure_st (st : Store) (r : ℕ) (dim stim : String) :
    Store × Option Figure :=
  match st.read r with
  | some (.raw df) =>
    let ar := st.alloc (.raw df)
    let st2 := ar.1.write ar.2 (.labeled (setLabelCol df stim))
    (st2, some (mkFigure (setLabelCol df stim) dim stim))
  | _ => (st, none)

section Lemmas

/-- Looking up a key in an enumerated association list returns the
value at the first index of the key. -/
lemma lookup_enumFrom_map (f : ℕ → String) :
    ∀ (l : List String) (n : ℕ) (a : String), a ∈ l →
      ((l.enumFrom n).map (fun p => (p.2, f p.1))).lookup a =
        some (f (n + l.indexOf a))
  | [], _, _, h => absurd h (List.not_mem_nil _)
  | b :: l, n, a, h => by
    simp only [List.enumFrom, List.map_cons]
    by_cases hab : a = b
    · subst hab
      simp [List.lookup_cons, List.indexOf_cons_self]
    · have hmem : a ∈ l := by
        rcases List.mem_cons.mp h with h' | h'
        · exact absurd h' hab
        · exact h'
      rw [List.lookup_cons]
      rw [beq_false_of_ne hab]
      rw [lookup_enumFrom_map f l (n + 1) a hmem]
      rw [List.indexOf_cons_ne _ (Ne.symm hab)]
      have harith : n + 1 + List.indexOf a l = n + (List.indexOf a l).succ := by
        omega
      rw [harith]

end Lemmas

/-- C1.  `audio_for` on a coordinate row: for a non-mixed stimulus type
it returns exactly the two filenames `{speaker}_{language}_utt1.wav` and
`{speaker}_{language}_utt2.wav` synthesized from the fields of the row itself;
for the mixed stimulus type it returns exactly four filenames, two per
language (`Can`/`Eng`), synthesized from the speaker field alone. -/
theorem audio_for_filenames (r : LRow) (stim : String) :
    (stim ≠ "mixed" →
      audio_for r stim =
        [r.speaker ++ "_" ++ r.language ++ "_utt1.wav",
         r.speaker ++ "_" ++ r.language ++ "_utt2.wav"]) ∧
    audio_for r "mixed" =
      [r.speaker ++ "_Can_utt1.wav", r.speaker ++ "_Can_utt2.wav",
       r.speaker ++ "_Eng_utt1.wav", r.speaker ++ "_Eng_utt2.wav"] := by
  constructor
  · intro h
    simp [audio_for, h]
  · simp [audio_for]

/-- Witness for C1: on the row with speaker `S1` and language `can`,
with stimulus type `can`, the resolver returns
`["S1_can_utt1.wav", "S1_can_utt2.wav"]`. -/
theorem audio_for_filenames_witness :
    ("can" : String) ≠ "mixed" ∧
    audio_for ⟨"S1", "can", 0, 0, none, "S1_Can"⟩ "can" =
      ["S1_can_utt1.wav", "S1_can_utt2.wav"] := by
  refine ⟨by decide, ?_⟩
  have h := (audio_for_filenames ⟨"S1", "can", 0, 0, none, "S1_Can"⟩ "can").1
    (by decide)
  exact h.trans (by decide)

/-- C5.  `color_map` assigns every speaker occurring in the facet the
palette colour at index (rank of the speaker in the sorted
unique-speaker list, modulo the palette size); being a Lean function it
is deterministic, so identical inputs give identical maps and the same
speaker always receives the same colour. -/
theorem color_map_rank (speakers : List String) (spk : String)
    (h : spk ∈ speakers) :
    (color_map speakers).lookup spk =
      some (palette.getD ((sortedUniq speakers).indexOf spk % palette.length)
        "") := by
  have hmem : spk ∈ sortedUniq speakers := by
    unfold sortedUniq
    rw [List.mem_insertionSort, List.mem_dedup]
    exact h
  have := lookup_enumFrom_map
    (fun i => palette.getD (i % palette.length) "") (sortedUniq speakers) 0 spk
    hmem
  simpa [color_map, List.enum] using this

/-- Witness for C5: with twelve speakers the palette cycles; speaker
`s10` (rank 10) receives `palette[0]` again. -/
theorem color_map_rank_witness :
    ("s10" : String) ∈
      ["s00", "s01", "s02", "s03", "s04", "s05", "s06", "s07", "s08",
       "s09", "s10", "s11"] ∧
    (color_map
      ["s00", "s01", "s02", "s03", "s04", "s05", "s06", "s07", "s08",
       "s09", "s10", "s11"]).lookup "s10" =
      some (palette.getD
        ((sortedUniq
          ["s00", "s01", "s02", "s03", "s04", "s05", "s06", "s07", "s08",
           "s09", "s10", "s11"]).indexOf "s10" % palette.length) "") :=
  ⟨by decide, color_map_rank _ _ (by decide)⟩

/-- C3.  Every axis of every figure produced by `build_figure` carries
the same fixed range `[-0.8, 0.8]`, for every dataframe, dimensionality
and stimulus type: two axes in the 2-d layout, three in the 3-d scene. -/
theorem build_figure_fixed_ranges (df : DataFrame) (dim stim : String) :
    axisRanges (build_figure df dim stim) =
      if dim = "2d" then [((-4 : ℚ)/5, (4 : ℚ)/5), ((-4 : ℚ)/5, (4 : ℚ)/5)]
      else [((-4 : ℚ)/5, (4 : ℚ)/5), ((-4 : ℚ)/5, (4 : ℚ)/5),
            ((-4 : ℚ)/5, (4 : ℚ)/5)] := by
  by_cases h : dim = "2d" <;>
    simp [build_figure, mkFigure, mkLayout, axisRanges, fixedRange, h]

section PartitionLemmas

/-- Splitting a list by two mutually exclusive, jointly exhaustive
predicates preserves the total length. -/
lemma length_filter_or {α} (p q : α → Bool) (l : List α)
    (hpq : ∀ a ∈ l, p a = true ∨ q a = true)
    (hdisj : ∀ a ∈ l, ¬(p a = true ∧ q a = true)) :
    (l.filter p).length + (l.filter q).length = l.length := by
  induction l with
  | nil => simp
  | cons a l ih =>
    have h1 := hpq a (List.mem_cons_self a l)
    have h2 := hdisj a (List.mem_cons_self a l)
    have ihl := ih (fun x hx => hpq x (List.mem_cons_of_mem a hx))
      (fun x hx => hdisj x (List.mem_cons_of_mem a hx))
    rcases h1 with hp | hq
    · have hqf : q a = false := by
        cases hq' : q a
        · rfl
        · exact absurd ⟨hp, hq'⟩ h2
      simp [List.filter_cons, hp, hqf]
      omega
    · have hpf : p a = false := by
        cases hp' : p a
        · rfl
        · exact absurd ⟨hp', hq⟩ h2
      simp [List.filter_cons, hpf, hq]
      omega

/-- Point-count of the traces for the mixed stimulus set: a single
trace holding every row (or none at all for an empty table). -/
lemma tracesFor_mixed_sum (ldf : List LRow) (dim : String) :
    ((tracesFor ldf dim "mixed").map tracePoints).sum = ldf.length ∧
    (tracesFor ldf dim "mixed").length ≤ 1 := by
  by_cases he : ldf = []
  · subst he
    simp [tracesFor, langsFor, subFor]
  · simp [tracesFor, langsFor, subFor, he, mkTrace, tracePoints]

/-- Point-count of the traces for a non-mixed stimulus set: the
Cantonese rows plus the English rows, empty series being skipped. -/
lemma tracesFor_nonmixed_sum (ldf : List LRow) (dim stim : String)
    (h : stim ≠ "mixed") :
    ((tracesFor ldf dim stim).map tracePoints).sum =
      (ldf.filter (fun r => strLower r.language = "can")).length +
      (ldf.filter (fun r => strLower r.language = "eng")).length := by
  by_cases hA : ldf.filter (fun r => strLower r.language = "can") = [] <;>
    by_cases hB : ldf.filter (fun r => strLower r.language = "eng") = [] <;>
      simp [tracesFor, langsFor, subFor, h, hA, hB, mkTrace, tracePoints]

end PartitionLemmas

/-- C4.  Whenever the language of every row (lowercased) is `can` or `eng`,
`build_figure` partitions the rows into series whose point counts sum
to the total row count of the table — no row dropped, none duplicated — and
for the mixed stimulus type at most one series is emitted (a single
series holding all rows, or none when the table is empty). -/
theorem build_figure_partition (df : DataFrame) (dim stim : String)
    (h : langOK df = true) :
    ((build_figure df dim stim).traces.map tracePoints).sum = df.length ∧
    (stim = "mixed" → (build_figure df dim stim).traces.length ≤ 1) := by
  simp only [langOK, List.all_eq_true, Bool.or_eq_true, beq_iff_eq] at h
  simp only [build_figure, mkFigure]
  by_cases hm : stim = "mixed"
  · subst hm
    refine ⟨?_, fun _ => (tracesFor_mixed_sum (setLabelCol df "mixed") dim).2⟩
    rw [(tracesFor_mixed_sum (setLabelCol df "mixed") dim).1]
    simp [setLabelCol]
  · refine ⟨?_, fun hm' => absurd hm' hm⟩
    rw [tracesFor_nonmixed_sum (setLabelCol df stim) dim stim hm]
    have hlen : (setLabelCol df stim).length = df.length := by
      simp [setLabelCol]
    rw [← hlen]
    apply length_filter_or
    · intro lr hlr
      rcases List.mem_map.mp hlr with ⟨r, hr, rfl⟩
      rcases h r hr with h' | h'
      · left
        simpa [setLabel] using h'
      · right
        simpa [setLabel] using h'
    · rintro lr hlr ⟨h1, h2⟩
      simp only [decide_eq_true_eq] at h1 h2
      rw [h1] at h2
      exact absurd h2 (by decide)

/-- Witness for C4: a two-row table (one Cantonese, one English row)
yields series with point counts summing to 2, and under the mixed
stimulus type a single series. -/
theorem build_figure_partition_witness :
    langOK [⟨"S1", "can", 0, 0, none⟩, ⟨"S2", "Eng", 0, 0, none⟩] = true ∧
    ((build_figure [⟨"S1", "can", 0, 0, none⟩, ⟨"S2", "Eng", 0, 0, none⟩]
        "2d" "all").traces.map tracePoints).sum = 2 ∧
    (build_figure [⟨"S1", "can", 0, 0, none⟩, ⟨"S2", "Eng", 0, 0, none⟩]
        "2d" "mixed").traces.length ≤ 1 :=
  ⟨by decide,
   (build_figure_partition _ "2d" "all" (by decide)).1,
   (build_figure_partition _ "2d" "mixed" (by decide)).2 rfl⟩

/-- C2.  Whenever the selected point carries a candidate filename list,
`play_audio` renders exactly one audio player per candidate that exists
in the asset directory, keeping the candidate order; when no candidate
exists on disk it renders the "not found" message and no player. -/
theorem play_audio_players_spec (fs : String → Bool)
    (a b c : Option ClickData) (cd : ClickData) (p : Point)
    (ps : List Point) (files : List String)
    (h1 : selectedClick a b c = some cd) (h2 : cd.points = p :: ps)
    (h3 : p.customdata = some files) :
    play_audio fs a b c =
      .ok (if files.filter (fun f => fs ("./assets/" ++ f)) = []
           then .message "Audio files not found"
           else .players ((files.filter (fun f => fs ("./assets/" ++ f))).map
             (fun f => "/assets/" ++ f))) := by
  simp only [play_audio, h1, renderClick, h2, handlePoint, h3, renderFiles]
  by_cases hf : files.filter (fun f => fs ("./assets/" ++ f)) = [] <;>
    simp [hf]

/-- Witness for C2: with only `a.wav` present on disk, a click carrying
`["a.wav", "x.wav"]` renders exactly one player, for `a.wav`. -/
theorem play_audio_players_spec_witness :
    selectedClick (some ⟨[⟨some ["a.wav", "x.wav"]⟩]⟩) none none =
      some ⟨[⟨some ["a.wav", "x.wav"]⟩]⟩ ∧
    play_audio (fun s => s == "./assets/a.wav")
        (some ⟨[⟨some ["a.wav", "x.wav"]⟩]⟩) none none =
      .ok (.players ["/assets/a.wav"]) := by
  refine ⟨rfl, ?_⟩
  rw [play_audio_players_spec (fun s => s == "./assets/a.wav")
    (some ⟨[⟨some ["a.wav", "x.wav"]⟩]⟩) none none
    ⟨[⟨some ["a.wav", "x.wav"]⟩]⟩ ⟨some ["a.wav", "x.wav"]⟩ []
    ["a.wav", "x.wav"] rfl rfl rfl]
  rfl

/-- C6 counterexample: a click whose selected point has
`customdata=None` does not make `play_audio` return the idle prompt —
the callback raises instead (iterating `None`). -/
theorem play_audio_none_customdata_counterexample :
    play_audio (fun _ => false) (some ⟨[⟨none⟩]⟩) none none ≠
      .ok (.message "Click a point to hear example audio") := by
  intro h
  have h2 : Except.error (α := Rendered)
      "TypeError: NoneType object is not iterable" =
      Except.ok (Rendered.message "Click a point to hear example audio") := h
  exact Except.noConfusion h2

/-- C6 (amended).  For every click event whose selected point has
`customdata=None`, `play_audio` raises a `TypeError` (it does not
return the idle prompt; the idle prompt is returned only when no
chart holds click data with a non-empty points list). -/
theorem play_audio_none_customdata (fs : String → Bool)
    (a b c : Option ClickData) (cd : ClickData) (p : Point)
    (ps : List Point)
    (h1 : selectedClick a b c = some cd) (h2 : cd.points = p :: ps)
    (h3 : p.customdata = none) :
    play_audio fs a b c =
      .error "TypeError: NoneType object is not iterable" := by
  simp [play_audio, h1, renderClick, h2, handlePoint, h3]

/-- Witness for the amended C6. -/
theorem play_audio_none_customdata_witness :
    selectedClick (some ⟨[⟨none⟩]⟩) none none = some ⟨[⟨none⟩]⟩ ∧
    play_audio (fun _ => false) (some ⟨[⟨none⟩]⟩) none none =
      .error "TypeError: NoneType object is not iterable" :=
  ⟨rfl, play_audio_none_customdata (fun _ => false) (some ⟨[⟨none⟩]⟩) none none
    ⟨[⟨none⟩]⟩ ⟨none⟩ [] rfl rfl rfl⟩

/-- C7 counterexample: when the all-listeners chart still holds click
data, the files of a (possibly later) click on the English-listeners
chart are never the ones used — the output is built from the
all-listeners point, so the selection is not "the last click across
any currently-rendered chart". -/
theorem play_audio_last_click_counterexample :
    play_audio (fun _ => true)
        (some ⟨[⟨some ["a.wav"]⟩]⟩) none (some ⟨[⟨some ["b.wav"]⟩]⟩) =
      .ok (.players ["/assets/a.wav"]) ∧
    play_audio (fun _ => true)
        (some ⟨[⟨some ["a.wav"]⟩]⟩) none (some ⟨[⟨some ["b.wav"]⟩]⟩) ≠
      .ok (.players ["/assets/b.wav"]) := by
  refine ⟨rfl, ?_⟩
  intro h
  have h2 : Except.ok (ε := String) (Rendered.players ["/assets/a.wav"]) =
      Except.ok (Rendered.players ["/assets/b.wav"]) := h
  injection h2 with h3
  injection h3 with h4
  injection h4 with h5 h6
  exact absurd h5 (by decide)

/-- C7 (amended).  `play_audio` is a two-state function of the stored
click data: when no chart holds click data with a non-empty points list it
is idle and renders the prompt; otherwise it is selected, and the
selected click is the first chart in the fixed order (all listeners,
Cantonese-English listeners, English listeners) whose click data passes
the guard — not necessarily the last-clicked chart — and the output is
rendered from the point of that click. -/
theorem play_audio_two_state (fs : String → Bool)
    (a b c : Option ClickData) :
    (selectedClick a b c = none ↔
      truthyClick a = false ∧ truthyClick b = false ∧ truthyClick c = false) ∧
    (selectedClick a b c = none →
      play_audio fs a b c = .ok (.message "Click a point to hear example audio")) ∧
    (∀ cd, selectedClick a b c = some cd →
      truthyClick (some cd) = true ∧
      play_audio fs a b c = renderClick fs (some cd)) := by
  refine ⟨?_, ?_, ?_⟩
  · constructor
    · intro h
      by_cases ha : truthyClick a = true
      · exfalso
        cases a with
        | none => simp [truthyClick] at ha
        | some cda => simp [selectedClick, ha] at h
      · by_cases hb : truthyClick b = true
        · exfalso
          cases b with
          | none => simp [truthyClick] at hb
          | some cdb => simp [selectedClick, ha, hb] at h
        · by_cases hc : truthyClick c = true
          · exfalso
            cases c with
            | none => simp [truthyClick] at hc
            | some cdc => simp [selectedClick, ha, hb, hc] at h
          · exact ⟨by simpa using ha, by simpa using hb, by simpa using hc⟩
    · rintro ⟨ha, hb, hc⟩
      simp [selectedClick, ha, hb, hc]
  · intro h
    simp [play_audio, h, renderClick]
  · intro cd h
    constructor
    · by_cases ha : truthyClick a = true
      · have : a = some cd := by simpa [selectedClick, ha] using h
        rw [← this]
        exact ha
      · by_cases hb : truthyClick b = true
        · have : b = some cd := by simpa [selectedClick, ha, hb] using h
          rw [← this]
          exact hb
        · by_cases hc : truthyClick c = true
          · have : c = some cd := by simpa [selectedClick, ha, hb, hc] using h
            rw [← this]
            exact hc
          · exfalso
            simp [selectedClick, ha, hb, hc] at h
    · simp [play_audio, h]

/-- Witness for the amended C7: with no click anywhere the prompt is
rendered; with a click on the all-listeners chart the output is
rendered from that click. -/
theorem play_audio_two_state_witness :
    play_audio (fun _ => true) none none none =
      .ok (.message "Click a point to hear example audio") ∧
    play_audio (fun _ => true) (some ⟨[⟨some ["a.wav"]⟩]⟩) none none =
      renderClick (fun _ => true) (some ⟨[⟨some ["a.wav"]⟩]⟩) :=
  ⟨(play_audio_two_state (fun _ => true) none none none).2.1 rfl,
   ((play_audio_two_state (fun _ => true) (some ⟨[⟨some ["a.wav"]⟩]⟩) none
      none).2.2 ⟨[⟨some ["a.wav"]⟩]⟩ rfl).2⟩

/-- C10.  When several chart click inputs simultaneously hold click
data with a non-empty points list, `play_audio` uses the first one in
the fixed order (all listeners, Cantonese-English listeners, English
listeners) and only the `customdata` of the first point of that click,
ignoring any further points and the click data of the other charts (the
right-hand sides mention only `p` and `fs`). -/
theorem play_audio_fixed_priority (fs : String → Bool)
    (a b c : Option ClickData) (p : Point) (ps : List Point) :
    (a = some ⟨p :: ps⟩ → play_audio fs a b c = handlePoint fs p) ∧
    (truthyClick a = false → b = some ⟨p :: ps⟩ →
      play_audio fs a b c = handlePoint fs p) ∧
    (truthyClick a = false → truthyClick b = false → c = some ⟨p :: ps⟩ →
      play_audio fs a b c = handlePoint fs p) := by
  refine ⟨?_, ?_, ?_⟩
  · rintro rfl
    simp [play_audio, selectedClick, truthyClick, renderClick]
  · rintro ha rfl
    simp only [play_audio, selectedClick, ha]
    simp [truthyClick, renderClick]
  · rintro ha hb rfl
    simp only [play_audio, selectedClick, ha, hb]
    simp [truthyClick, renderClick]

/-- Witness for C10: with an idle all-listeners chart and a click on
the Cantonese-English-listeners chart, the first point of that click is
used. -/
theorem play_audio_fixed_priority_witness :
    truthyClick none = false ∧
    play_audio (fun _ => true) none (some ⟨[⟨some ["a.wav"]⟩]⟩)
        (some ⟨[⟨some ["b.wav"]⟩]⟩) =
      handlePoint (fun _ => true) ⟨some ["a.wav"]⟩ :=
  ⟨rfl, (play_audio_fixed_priority (fun _ => true) none
    (some ⟨[⟨some ["a.wav"]⟩]⟩) (some ⟨[⟨some ["b.wav"]⟩]⟩)
    ⟨some ["a.wav"]⟩ []).2.1 rfl rfl⟩

section LoaderLemmas

/-- Loading via `load_coords` succeeds exactly when the file is present and parses. -/
lemma load_coords_ok_iff (fsv : String → Option DataFrame)
    (stim group : String) (dim : ℕ) (t : DataFrame) :
    load_coords fsv stim group dim = .ok t ↔
      fsv (coordPath stim group dim) = some t := by
  unfold load_coords
  cases h : fsv (coordPath stim group dim) <;> simp

/-- A successful `loadFacets` returns one table per requested key, in
order, each table being exactly the parsed contents of its file. -/
lemma loadFacets_ok (fsv : String → Option DataFrame) :
    ∀ (ks : List (String × String × String))
      (tbl : List ((String × String × String) × DataFrame)),
      loadFacets fsv ks = .ok tbl →
      tbl.map Prod.fst = ks ∧
      ∀ p ∈ tbl, fsv (coordPath p.1.2.1 p.1.2.2 (dimNum p.1.1)) = some p.2
  | [], tbl, h => by
    simp only [loadFacets] at h
    injection h with h
    subst h
    simp
  | k :: ks, tbl, h => by
    simp only [loadFacets] at h
    cases hl : load_coords fsv k.2.1 k.2.2 (dimNum k.1) with
    | error e => rw [hl] at h; exact Except.noConfusion h
    | ok t =>
      rw [hl] at h
      cases hr : loadFacets fsv ks with
      | error e => rw [hr] at h; exact Except.noConfusion h
      | ok rest =>
        rw [hr] at h
        injection h with h
        subst h
        obtain ⟨ih1, ih2⟩ := loadFacets_ok fsv ks rest hr
        refine ⟨by simp [ih1], ?_⟩
        intro p hp
        rcases List.mem_cons.mp hp with rfl | hp'
        · exact (load_coords_ok_iff fsv k.2.1 k.2.2 (dimNum k.1) t).mp hl
        · exact ih2 p hp'

/-- If any requested file is absent or malformed, `loadFacets` fails. -/
lemma loadFacets_err (fsv : String → Option DataFrame) :
    ∀ (ks : List (String × String × String)) (k : String × String × String),
      k ∈ ks → fsv (coordPath k.2.1 k.2.2 (dimNum k.1)) = none →
      ∃ e, loadFacets fsv ks = .error e
  | [], k, hk, _ => absurd hk (List.not_mem_nil k)
  | k' :: ks, k, hk, hn => by
    rcases List.mem_cons.mp hk with rfl | hmem
    · exact ⟨"read_csv failed: " ++ coordPath k.2.1 k.2.2 (dimNum k.1),
        by simp [loadFacets, load_coords, hn]⟩
    · cases hl : load_coords fsv k'.2.1 k'.2.2 (dimNum k'.1) with
      | error e => exact ⟨e, by simp [loadFacets, hl]⟩
      | ok t =>
        obtain ⟨e, he⟩ := loadFacets_err fsv ks k hmem hn
        exact ⟨e, by simp [loadFacets, hl, he]⟩

end LoaderLemmas

/-- C8.  At process start the coordinate store attempts one table for
every facet combination — all 24 of 2 dimensionalities × 4 stimulus
types × 3 listener groups: on success the loaded facet keys are exactly
those 24 combinations and each stored table is precisely the parsed
contents of its file (nothing mutated); if any required file is absent
or malformed the whole load raises, so the process cannot start. -/
theorem startup_loads_all_facets (fsv : String → Option DataFrame) :
    facetKeys.length = 24 ∧
    (∀ tbl, loadAllCoords fsv = .ok tbl →
      tbl.map Prod.fst = facetKeys ∧
      ∀ p ∈ tbl, fsv (coordPath p.1.2.1 p.1.2.2 (dimNum p.1.1)) = some p.2) ∧
    (∀ k ∈ facetKeys, fsv (coordPath k.2.1 k.2.2 (dimNum k.1)) = none →
      ∃ e, loadAllCoords fsv = .error e) := by
  refine ⟨by decide, ?_, ?_⟩
  · intro tbl h
    exact loadFacets_ok fsv facetKeys tbl h
  · intro k hk hn
    exact loadFacets_err fsv facetKeys k hk hn

/-- Witness for C8: with every file present the 24 facet keys load in
order; with no file present the load fails. -/
theorem startup_loads_all_facets_witness :
    (facetKeys.map (fun k => (k, ([] : DataFrame)))).map Prod.fst =
      facetKeys ∧
    (∃ e, loadAllCoords (fun _ => none) = .error e) := by
  constructor
  · exact ((startup_loads_all_facets (fun _ => some ([] : DataFrame))).2.1
      (facetKeys.map (fun k => (k, ([] : DataFrame)))) (by rfl)).1
  · exact (startup_loads_all_facets (fun _ => none)).2.2 ("2d", "all", "all")
      (by decide) rfl

section StoreLemmas

/-- Writing through one reference leaves the contents behind every
other reference unchanged. -/
lemma assocFind_write (v : DFObj) :
    ∀ (l : List (ℕ × DFObj)) (r r' : ℕ), r ≠ r' →
      assocFind r (l.map (fun p => if p.1 = r' then (r', v) else p)) =
        assocFind r l
  | [], _, _, _ => rfl
  | p :: l, r, r', h => by
    by_cases hp : p.1 = r'
    · simp only [List.map_cons, if_pos hp, assocFind]
      rw [if_neg (fun he : r' = r => h he.symm),
        if_neg (fun he : p.1 = r => h (hp ▸ he : r' = r).symm)]
      exact assocFind_write v l r r' h
    · simp only [List.map_cons, if_neg hp, assocFind]
      by_cases hpr : p.1 = r
      · rw [if_pos hpr, if_pos hpr]
      · rw [if_neg hpr, if_neg hpr]
        exact assocFind_write v l r r' h

/-- A readable reference is below the allocation bound. -/
lemma assocFind_lt :
    ∀ (l : List (ℕ × DFObj)) (r : ℕ) (v : DFObj) (n : ℕ),
      assocFind r l = some v → (∀ p ∈ l, p.1 < n) → r < n
  | [], r, v, n, h, _ => by simp [assocFind] at h
  | p :: l, r, v, n, h, hb => by
    simp only [assocFind] at h
    by_cases hp : p.1 = r
    · rw [← hp]
      exact hb p (List.mem_cons_self p l)
    · rw [if_neg hp] at h
      exact assocFind_lt l r v n h (fun q hq => hb q (List.mem_cons_of_mem p hq))

end StoreLemmas

/-- C9.  `build_figure` at the heap level emits no side effect on its
argument: on a well-formed heap, after the call the dataframe
object of the caller is unchanged (the derived label column lives only in the
freshly-allocated internal copy), and the returned figure is exactly
the pure `build_figure` of the dataframe contents — it depends only
on the dataframe, the dimensionality and the stimulus type. -/
theorem build_figure_no_side_effect (st : Store) (r : ℕ) (dim stim : String)
    (df : DataFrame) (hwf : Store.WF st) (h : st.read r = some (.raw df)) :
    (build_figure_st st r dim stim).1.read r = some (.raw df) ∧
    (build_figure_st st r dim stim).2 = some (build_figure df dim stim) ∧
    (build_figure_st st r dim stim).1.read st.next =
      some (.labeled (setLabelCol df stim)) := by
  have hlt : r < st.next := assocFind_lt st.data r _ st.next h hwf
  unfold build_figure_st
  rw [h]
  simp only [Store.alloc, Store.write, Store.read]
  refine ⟨?_, rfl, ?_⟩
  · rw [assocFind_write _ _ r st.next (by omega)]
    simp only [assocFind]
    rw [if_neg (by omega : ¬ st.next = r)]
    exact h
  · simp [assocFind]

/-- Witness for C9 on a one-object heap. -/
theorem build_figure_no_side_effect_witness :
    (build_figure_st ⟨[(0, DFObj.raw [])], 1⟩ 0 "2d" "all").1.read 0 =
      some (.raw []) ∧
    (build_figure_st ⟨[(0, DFObj.raw [])], 1⟩ 0 "2d" "all").2 =
      some (build_figure [] "2d" "all") := by
  have hwf : Store.WF ⟨[(0, DFObj.raw [])], 1⟩ := by
    intro p hp
    rcases List.mem_singleton.mp hp with rfl
    exact Nat.one_pos
  exact ⟨(build_figure_no_side_effect _ 0 "2d" "all" [] hwf rfl).1,
    (build_figure_no_side_effect _ 0 "2d" "all" [] hwf rfl).2.1⟩
